import Mathlib

/-!
Shallow embedding of the vue-app-backend HTTP handlers.

The repository holds several concatenated iterations of an Express + MongoDB
backend.  The generic `/collections/:collectionName` CRUD routes live in the
first iteration of `src/unnamed/part_000`; `src/server.js` holds the
`/lessons` and `/orders` routes; the second iteration of
`src/unnamed/part_000` holds the `/order` routes and the existence-checking
`collectionName` param middleware.

JSON values are modelled by `Value`, documents by `Doc` (a store-assigned
identifier plus an association list of fields), and the database by `Db`
(an association list from collection names to document lists).  Each handler
is a pure function from the request data and database state to an HTTP
`Response`, the resulting database state, and the list of storage operations
it performed, so that claims of the form "no storage lookup happens" are
provable statements.
-/

/-- A JSON-compatible value, as far as the handlers inspect one. -/
inductive Value where
  | str (s : String)
  | num (n : Int)
  | bool (b : Bool)
  | arr (xs : List Value)
  | null

mutual

/-- Boolean equality on values (needed because `Value` nests `List`). -/
def Value.beq : Value → Value → Bool
  | .str a, .str b => a == b
  | .num a, .num b => a == b
  | .bool a, .bool b => a == b
  | .null, .null => true
  | .arr a, .arr b => Value.beqs a b
  | _, _ => false

/-- Boolean equality on lists of values. -/
def Value.beqs : List Value → List Value → Bool
  | [], [] => true
  | x :: xs, y :: ys => Value.beq x y && Value.beqs xs ys
  | _, _ => false

end

mutual

theorem Value.beq_iff : ∀ a b : Value, Value.beq a b = true ↔ a = b
  | .str _, .str _ => by simp [Value.beq]
  | .str _, .num _ => by simp [Value.beq]
  | .str _, .bool _ => by simp [Value.beq]
  | .str _, .arr _ => by simp [Value.beq]
  | .str _, .null => by simp [Value.beq]
  | .num _, .str _ => by simp [Value.beq]
  | .num _, .num _ => by simp [Value.beq]
  | .num _, .bool _ => by simp [Value.beq]
  | .num _, .arr _ => by simp [Value.beq]
  | .num _, .null => by simp [Value.beq]
  | .bool _, .str _ => by simp [Value.beq]
  | .bool _, .num _ => by simp [Value.beq]
  | .bool _, .bool _ => by simp [Value.beq]
  | .bool _, .arr _ => by simp [Value.beq]
  | .bool _, .null => by simp [Value.beq]
  | .arr _, .str _ => by simp [Value.beq]
  | .arr _, .num _ => by simp [Value.beq]
  | .arr _, .bool _ => by simp [Value.beq]
  | .arr a, .arr b => by simp [Value.beq, Value.beqs_iff a b]
  | .arr _, .null => by simp [Value.beq]
  | .null, .str _ => by simp [Value.beq]
  | .null, .num _ => by simp [Value.beq]
  | .null, .bool _ => by simp [Value.beq]
  | .null, .arr _ => by simp [Value.beq]
  | .null, .null => by simp [Value.beq]

theorem Value.beqs_iff : ∀ xs ys : List Value, Value.beqs xs ys = true ↔ xs = ys
  | [], [] => by simp [Value.beqs]
  | [], _ :: _ => by simp [Value.beqs]
  | _ :: _, [] => by simp [Value.beqs]
  | x :: xs, y :: ys => by
    simp [Value.beqs, Value.beq_iff x y, Value.beqs_iff xs ys]

end

instance : DecidableEq Value := fun a b => decidable_of_iff _ (Value.beq_iff a b)

/-- JavaScript truthiness of a value, used by the order validators
(`!order.name || ...`): empty strings, the number 0, `false` and `null` are
falsy; arrays are objects and hence always truthy. -/
def Value.truthy : Value → Bool
  | .str s => s ≠ ""
  | .num n => n ≠ 0
  | .bool b => b
  | .arr _ => true
  | .null => false

/-- Truthiness of a possibly-missing field: an absent field reads as
`undefined`, which is falsy. -/
def truthyOpt : Option Value → Bool
  | none => false
  | some v => v.truthy

/-- `Array.isArray` on a possibly-missing field. -/
def isArrayOpt : Option Value → Bool
  | some (.arr _) => true
  | _ => false

/-- A stored document: the store-assigned `_id` (in its canonical 24-hex-char
wire encoding) together with the remaining fields. -/
structure Doc where
  oid : String
  fields : List (String × Value)
deriving DecidableEq

/-- The database: an association list from collection names to the documents
stored in each collection. -/
structure Db where
  collections : List (String × List Doc)
deriving DecidableEq

/-- The documents of a collection; a nonexistent collection reads as empty,
exactly as a MongoDB `find` on a never-created collection returns nothing. -/
def Db.find (db : Db) (name : String) : List Doc :=
  match db.collections.lookup name with
  | some ds => ds
  | none => []

/-- Whether a collection exists, as reported by
`db.listCollections({name}).toArray().length > 0`. -/
def Db.collectionExists (db : Db) (name : String) : Bool :=
  db.collections.any (fun p => p.1 == name)

/-- `insertOne`: append the document to the named collection, creating the
collection implicitly when it does not exist yet (MongoDB behaviour). -/
def Db.insertOne (db : Db) (name : String) (d : Doc) : Db :=
  if db.collections.any (fun p => p.1 == name) then
    ⟨db.collections.map (fun p => if p.1 == name then (p.1, p.2 ++ [d]) else p)⟩
  else
    ⟨db.collections ++ [(name, [d])]⟩

/-- Replace the whole document list of a collection (helper for update and
delete; it rewrites every entry carrying that name, which coincides with the
single-entry case the handlers produce). -/
def Db.setColl (db : Db) (name : String) (ds : List Doc) : Db :=
  ⟨db.collections.map (fun p => if p.1 == name then (p.1, ds) else p)⟩

/-- `$set` of a single field (`doc[key] = value` on a BSON document, whose
field names are unique): overwrite the field when present, append it
otherwise. -/
def applySetField : List (String × Value) → String × Value → List (String × Value)
  | [], kv => [kv]
  | p :: rest, kv =>
    if p.1 == kv.1 then (p.1, kv.2) :: rest else p :: applySetField rest kv

/-- `updateOne(_, { $set: updates })` applied to one document: only the
supplied fields change, the identifier and every other field are kept. -/
def Doc.applySet (d : Doc) (updates : List (String × Value)) : Doc :=
  ⟨d.oid, updates.foldl applySetField d.fields⟩

/-- First document of a list carrying the given identifier. -/
def findDoc (ds : List Doc) (oid : String) : Option Doc :=
  ds.find? (fun d => d.oid == oid)

/-- Replace the first document carrying the given identifier. -/
def replaceDoc : List Doc → String → Doc → List Doc
  | [], _, _ => []
  | x :: xs, oid, d => if x.oid == oid then d :: xs else x :: replaceDoc xs oid d

/-- Remove the first document carrying the given identifier, returning the
`deletedCount` as well. -/
def removeDoc : List Doc → String → Nat × List Doc
  | [], _ => (0, [])
  | x :: xs, oid =>
    if x.oid == oid then (1, xs)
    else
      let r := removeDoc xs oid
      (r.1, x :: r.2)

/-- Result counts of a MongoDB `updateOne`. -/
structure UpdateResult where
  matchedCount : Nat
  modifiedCount : Nat
deriving DecidableEq

/-- `updateOne({_id: oid}, { $set: updates })` on the named collection:
`matchedCount` is 1 iff a document carries the identifier, and
`modifiedCount` is 1 iff the `$set` actually changed that document. -/
def Db.updateOne (db : Db) (name : String) (oid : String)
    (updates : List (String × Value)) : UpdateResult × Db :=
  match findDoc (db.find name) oid with
  | none => (⟨0, 0⟩, db)
  | some d =>
    let d2 := d.applySet updates
    let modified := if d2 = d then 0 else 1
    (⟨1, modified⟩, db.setColl name (replaceDoc (db.find name) oid d2))

/-- `deleteOne({_id: oid})` on the named collection. -/
def Db.deleteOne (db : Db) (name : String) (oid : String) : Nat × Db :=
  let r := removeDoc (db.find name) oid
  (r.1, db.setColl name r.2)

/-- Hexadecimal digit test for identifier characters. -/
def isHexChar (c : Char) : Bool :=
  (('0' ≤ c && c ≤ '9') || ('a' ≤ c && c ≤ 'f')) || ('A' ≤ c && c ≤ 'F')

/-- Validity of a wire identifier for the `new ObjectId(string)` constructor:
a 24-character hexadecimal string; on anything else the constructor throws. -/
def isValidObjectId (s : String) : Bool :=
  s.length == 24 && s.toList.all isHexChar

/-- The message of the `BSONError` thrown by `new ObjectId` on a malformed
string, which the handlers interpolate into their catch-branch responses. -/
def objectIdErrMsg : String :=
  "input must be a 24 character hex string, 12 byte Uint8Array, or an integer"

/-- An HTTP JSON response as the handlers build one: a status code plus at
most one of an error body, a document payload, or a success message. -/
structure Response where
  status : Nat
  error : Option String := none
  docs : Option (List Doc) := none
  message : Option String := none
deriving DecidableEq

/-- One storage operation issued by a handler, recorded so that claims about
storage being touched (or not) are statable. -/
inductive StoreOp where
  | findAll (coll : String)
  | findOne (coll : String) (oid : String)
  | insertOne (coll : String) (d : Doc)
  | updateOne (coll : String) (oid : String)
  | deleteOne (coll : String) (oid : String)
deriving DecidableEq

/-- Wrap a string in double quotes, as the template literals in the error
messages do. -/
def quoteStr (s : String) : String := "\x22" ++ s ++ "\x22"

/-- 404 body of the by-id routes:
`Document with ID "<id>" not found in collection "<name>".` -/
def docNotFoundMsg (idParam coll : String) : String :=
  "Document with ID " ++ quoteStr idParam ++ " not found in collection " ++
    quoteStr coll ++ "."

/-- Catch-branch body of `GET /collections/:collectionName`. -/
def fetchAllErrMsg (coll msg : String) : String :=
  "Error fetching documents from collection " ++ quoteStr coll ++ ": " ++ msg

/-- Catch-branch body of `GET /collections/:collectionName/limited`. -/
def fetchLimitedErrMsg (coll msg : String) : String :=
  "Error fetching limited documents from collection " ++ quoteStr coll ++ ": " ++ msg

/-- Catch-branch body of `GET /collections/:collectionName/:id`. -/
def fetchByIdErrMsg (idParam coll msg : String) : String :=
  "Error fetching document by ID " ++ quoteStr idParam ++ " from collection " ++
    quoteStr coll ++ ": " ++ msg

/-- Catch-branch body of `DELETE /collections/:collectionName/:id`. -/
def deleteByIdErrMsg (idParam coll msg : String) : String :=
  "Error deleting document with ID " ++ quoteStr idParam ++ " from collection " ++
    quoteStr coll ++ ": " ++ msg

/-- Catch-branch body of `PUT /collections/:collectionName/:id`. -/
def updateByIdErrMsg (idParam coll msg : String) : String :=
  "Error updating document with ID " ++ quoteStr idParam ++ " in collection " ++
    quoteStr coll ++ ": " ++ msg

/-- Body of the global error-handling middleware of the iteration that
defines the `/collections` routes. -/
def globalErrorResponse : Response :=
  ⟨500, some "An unexpected internal error occurred.", none, none⟩

/-- `GET /collections/:collectionName`: the handler body applied to the
outcome of `req.collection.find({}).toArray()` (`Except.error msg` models the
promise rejecting with an error whose `message` is `msg`; the catch branch
interpolates that message into the 500 body). -/
def getAllCollection (coll : String) (findResult : Except String (List Doc)) :
    Response :=
  match findResult with
  | .error msg => ⟨500, some (fetchAllErrMsg coll msg), none, none⟩
  | .ok results =>
    if results.length = 0 then
      ⟨404, some "No documents found in the collection.", none, none⟩
    else ⟨200, none, some results, none⟩

/-- Sort key of `sort({price: -1})` restricted to the document shapes the
application stores: a numeric `price` field, or no usable `price` at all
(absent or non-numeric), which sorts below every number. -/
def priceKey (d : Doc) : WithBot Int :=
  match d.fields.lookup "price" with
  | some (.num n) => (n : WithBot Int)
  | _ => ⊥

/-- The descending-price ordering used by the `limited` route. -/
def priceGe (a b : Doc) : Prop := priceKey b ≤ priceKey a

instance : DecidableRel priceGe :=
  fun a b => inferInstanceAs (Decidable (priceKey b ≤ priceKey a))

instance : IsTotal Doc priceGe := ⟨fun a b => le_total (priceKey b) (priceKey a)⟩

instance : IsTrans Doc priceGe := ⟨fun _ _ _ h1 h2 => le_trans h2 h1⟩

/-- The store-side `sort({price: -1})`: a stable sort by descending price
(MongoDB applies the sort before the limit regardless of call order). -/
def sortByPriceDesc (docs : List Doc) : List Doc :=
  List.insertionSort priceGe docs

/-- `GET /collections/:collectionName/limited`: the handler body applied to
the outcome of `find({}).limit(3).sort({price: -1}).toArray()`. -/
def getLimitedCollection (coll : String)
    (findResult : Except String (List Doc)) : Response :=
  match findResult with
  | .error msg => ⟨500, some (fetchLimitedErrMsg coll msg), none, none⟩
  | .ok docs =>
    let results := (sortByPriceDesc docs).take 3
    if results.length = 0 then
      ⟨404, some "No documents found in the collection.", none, none⟩
    else ⟨200, none, some results, none⟩

/-- `GET /collections/:collectionName/:id`: `new ObjectId(req.params.id)` is
evaluated first; on a malformed string it throws, the catch branch answers
500 with the `BSONError` message interpolated, and no `findOne` runs. -/
def getDocumentById (db : Db) (coll idParam : String) :
    Response × Db × List StoreOp :=
  if isValidObjectId idParam then
    match findDoc (db.find coll) idParam with
    | none =>
      (⟨404, some (docNotFoundMsg idParam coll), none, none⟩, db,
        [.findOne coll idParam])
    | some d => (⟨200, none, some [d], none⟩, db, [.findOne coll idParam])
  else
    (⟨500, some (fetchByIdErrMsg idParam coll objectIdErrMsg), none, none⟩,
      db, [])

/-- `POST /collections/:collectionName`: a missing (`null`) or empty body is
rejected with 400 before `insertOne`; otherwise the document is inserted with
the store-assigned identifier `newId`. -/
def postCollection (db : Db) (coll : String)
    (body : Option (List (String × Value))) (newId : String) :
    Response × Db × List StoreOp :=
  match body with
  | none => (⟨400, some "Request body cannot be empty.", none, none⟩, db, [])
  | some fields =>
    if fields.length = 0 then
      (⟨400, some "Request body cannot be empty.", none, none⟩, db, [])
    else
      (⟨200, none, none, some "Document created successfully."⟩,
        db.insertOne coll ⟨newId, fields⟩, [.insertOne coll ⟨newId, fields⟩])

/-- `DELETE /collections/:collectionName/:id`: malformed identifier → the
constructor throws → catch answers 500 and no `deleteOne` runs; otherwise
`deletedCount === 0` → 404, else success. -/
def deleteDocumentById (db : Db) (coll idParam : String) :
    Response × Db × List StoreOp :=
  if isValidObjectId idParam then
    let r := db.deleteOne coll idParam
    if r.1 = 0 then
      (⟨404, some (docNotFoundMsg idParam coll), none, none⟩, r.2,
        [.deleteOne coll idParam])
    else
      (⟨200, none, none, some "Document deleted successfully."⟩, r.2,
        [.deleteOne coll idParam])
  else
    (⟨500, some (deleteByIdErrMsg idParam coll objectIdErrMsg), none, none⟩,
      db, [])

/-- `PUT /collections/:collectionName/:id`: the identifier is parsed first
(malformed → 500, nothing runs), then an empty body is rejected with 400,
then `updateOne` with `$set`; `matchedCount === 0` → 404, else success. -/
def putCollectionById (db : Db) (coll idParam : String)
    (body : Option (List (String × Value))) : Response × Db × List StoreOp :=
  if isValidObjectId idParam then
    match body with
    | none => (⟨400, some "Request body cannot be empty.", none, none⟩, db, [])
    | some updates =>
      if updates.length = 0 then
        (⟨400, some "Request body cannot be empty.", none, none⟩, db, [])
      else
        let r := db.updateOne coll idParam updates
        if r.1.matchedCount = 0 then
          (⟨404, some (docNotFoundMsg idParam coll), none, none⟩, r.2,
            [.updateOne coll idParam])
        else
          (⟨200, none, none, some "Document updated successfully."⟩, r.2,
            [.updateOne coll idParam])
  else
    (⟨500, some (updateByIdErrMsg idParam coll objectIdErrMsg), none, none⟩,
      db, [])

/-- `PUT /lessons/:id` (src/server.js): no body-emptiness check; the branch
condition is `modifiedCount === 0`, so both a missing lesson and a `$set`
that changes nothing answer 404. -/
def putLessonById (db : Db) (idParam : String)
    (body : List (String × Value)) : Response × Db × List StoreOp :=
  if isValidObjectId idParam then
    let r := db.updateOne "lessons" idParam body
    if r.1.modifiedCount = 0 then
      (⟨404, some "Lesson not found or no changes applied.", none, none⟩,
        r.2, [.updateOne "lessons" idParam])
    else
      (⟨200, none, none, some "Lesson updated successfully."⟩, r.2,
        [.updateOne "lessons" idParam])
  else
    (⟨500, some "Failed to update lesson.", none, none⟩, db, [])

/-- The fields of a `POST /orders` body that the validator inspects; a
`none` field models a key absent from the JSON object. -/
structure OrdersBody where
  name : Option Value
  phone : Option Value
  lessonIDs : Option Value
  spaces : Option Value
deriving DecidableEq

/-- The document `insertOne(order)` stores on the success path (all four
fields are then present). -/
def OrdersBody.fields (b : OrdersBody) : List (String × Value) :=
  [("name", b.name.getD .null), ("phone", b.phone.getD .null),
   ("lessonIDs", b.lessonIDs.getD .null), ("spaces", b.spaces.getD .null)]

/-- `POST /orders` (src/server.js): rejects with 400 when
`!order.name || !order.phone || !order.lessonIDs || !order.spaces`, i.e. when
any of the four fields is absent or falsy; otherwise inserts the order. -/
def postOrders (db : Db) (body : OrdersBody) (newId : String) :
    Response × Db × List StoreOp :=
  if !truthyOpt body.name || !truthyOpt body.phone ||
      !truthyOpt body.lessonIDs || !truthyOpt body.spaces then
    (⟨400, some "Invalid order format.", none, none⟩, db, [])
  else
    let d : Doc := ⟨newId, body.fields⟩
    (⟨200, none, none, some "Order created successfully."⟩,
      db.insertOne "orders" d, [.insertOne "orders" d])

/-- The fields of a `POST /order` body (second iteration of
src/unnamed/part_000) that the validator inspects. -/
structure OrderBody where
  name : Option Value
  phone : Option Value
  address : Option Value
  lessons : Option Value
deriving DecidableEq

/-- The document stored on the success path: the four destructured fields
plus the `date: new Date()` timestamp, passed in as the opaque `now`. -/
def OrderBody.fields (b : OrderBody) (now : Value) : List (String × Value) :=
  [("name", b.name.getD .null), ("phone", b.phone.getD .null),
   ("address", b.address.getD .null), ("lessons", b.lessons.getD .null),
   ("date", now)]

/-- `POST /order`: rejects with 400 when
`!name || !phone || !address || !Array.isArray(lessons)`; otherwise inserts
the order and answers 201. -/
def postOrder (db : Db) (body : OrderBody) (newId : String) (now : Value) :
    Response × Db × List StoreOp :=
  if !truthyOpt body.name || !truthyOpt body.phone ||
      !truthyOpt body.address || !isArrayOpt body.lessons then
    (⟨400, some "Invalid order format.", none, none⟩, db, [])
  else
    let d : Doc := ⟨newId, body.fields now⟩
    (⟨201, none, none, some "Order placed successfully."⟩,
      db.insertOne "orders" d, [.insertOne "orders" d])

/-- Outcome of a `collectionName` param middleware: hand over to the route
handler, or answer the request itself. -/
inductive ParamOutcome where
  | next
  | respond (r : Response)
deriving DecidableEq

/-- The `collectionName` param middleware of the iteration that defines the
`/collections` routes (src/unnamed/part_000, first iteration): it merely
binds `db1.collection(collectionName)` — which never fails for a missing
collection — and always calls `next()`. -/
def collectionParamNoCheck (_db : Db) (_coll : String) : ParamOutcome := .next

/-- 404 body of the existence-checking param middleware. -/
def collectionNotFoundMsg (coll : String) : String :=
  "Collection " ++ quoteStr coll ++ " does not exist."

/-- The `collectionName` param middleware of the other iterations
(src/server.js and the second iteration of src/unnamed/part_000): checks
`listCollections({name})` and short-circuits with 404 when the collection
does not exist. -/
def collectionParamWithCheck (db : Db) (coll : String) : ParamOutcome :=
  if db.collectionExists coll then .next
  else .respond ⟨404, some (collectionNotFoundMsg coll), none, none⟩

/-- `GET /collections/:collectionName` as routed: param middleware (the
variant actually installed next to this route), then the handler. -/
def routeGetAll (db : Db) (coll : String) : Response × Db × List StoreOp :=
  match collectionParamNoCheck db coll with
  | .respond r => (r, db, [])
  | .next =>
    (getAllCollection coll (Except.ok (db.find coll)), db, [StoreOp.findAll coll])

/-- `GET /collections/:collectionName/limited` as routed. -/
def routeGetLimited (db : Db) (coll : String) : Response × Db × List StoreOp :=
  match collectionParamNoCheck db coll with
  | .respond r => (r, db, [])
  | .next =>
    (getLimitedCollection coll (Except.ok (db.find coll)), db,
      [StoreOp.findAll coll])

/-- `POST /collections/:collectionName` as routed in the iteration that
defines it: the param middleware performs no existence check. -/
def routePostNoCheck (db : Db) (coll : String)
    (body : Option (List (String × Value))) (newId : String) :
    Response × Db × List StoreOp :=
  match collectionParamNoCheck db coll with
  | .respond r => (r, db, [])
  | .next => postCollection db coll body newId

/-- The same route composed with the existence-checking param middleware of
the other iterations, for comparison. -/
def routePostWithCheck (db : Db) (coll : String)
    (body : Option (List (String × Value))) (newId : String) :
    Response × Db × List StoreOp :=
  match collectionParamWithCheck db coll with
  | .respond r => (r, db, [])
  | .next => postCollection db coll body newId

/-! ### Concrete sample data for the scenarios -/

/-- A 24-hex-character identifier, valid for `new ObjectId`. -/
def oidA : String := "aaaaaaaaaaaaaaaaaaaaaaaa"

/-- A second valid identifier. -/
def oidB : String := "bbbbbbbbbbbbbbbbbbbbbbbb"

/-- A third valid identifier. -/
def oidC : String := "cccccccccccccccccccccccc"

/-- A fourth valid identifier. -/
def oidD : String := "dddddddddddddddddddddddd"

/-- The lesson of the round-trip scenario:
`{"subject": "Math", "spaces": 5}`. -/
def lessonMath : Doc :=
  ⟨oidA, [("subject", Value.str "Math"), ("spaces", Value.num 5)]⟩

/-- A database whose `lessons` collection holds exactly that lesson. -/
def lessonsDb : Db := ⟨[("lessons", [lessonMath])]⟩

/-- A database in which no collection exists at all. -/
def emptyDb : Db := ⟨[]⟩

/-- Priced documents for the limited/sorted scenarios. -/
def priceDoc5 : Doc := ⟨oidA, [("price", Value.num 5)]⟩

/-- A document priced 9. -/
def priceDoc9 : Doc := ⟨oidB, [("price", Value.num 9)]⟩

/-- A document priced 7. -/
def priceDoc7 : Doc := ⟨oidC, [("price", Value.num 7)]⟩

/-- A document priced 1. -/
def priceDoc1 : Doc := ⟨oidD, [("price", Value.num 1)]⟩

/-- Four priced documents, deliberately unsorted. -/
def pricedDocs : List Doc := [priceDoc5, priceDoc9, priceDoc7, priceDoc1]

/-- An order body whose fields are all present and truthy except that
`spaces` is the number 0. -/
def zeroSpacesOrder : OrdersBody :=
  ⟨some (Value.str "Alice"), some (Value.str "12345"),
    some (Value.arr [Value.str "a1"]), some (Value.num 0)⟩

/-- An order body (second sub-kind) whose `address` is the empty string. -/
def emptyAddressOrder : OrderBody :=
  ⟨some (Value.str "Alice"), some (Value.str "12345"), some (Value.str ""),
    some (Value.arr [])⟩

/-! ### Helper lemmas about the storage model -/

theorem lookup_applySetField (fields : List (String × Value)) (k : String)
    (v : Value) (k2 : String) :
    (applySetField fields (k, v)).lookup k2 =
      if k2 = k then some v else fields.lookup k2 := by
  induction fields with
  | nil =>
    by_cases h : k2 = k
    · simp [applySetField, List.lookup_cons, h]
    · simp [applySetField, List.lookup_cons, beq_false_of_ne h, h]
  | cons p rest ih =>
    obtain ⟨k1, v1⟩ := p
    by_cases hp : k1 = k
    · subst hp
      by_cases h2 : k2 = k1
      · subst h2
        simp [applySetField, List.lookup_cons]
      · simp [applySetField, List.lookup_cons, beq_false_of_ne h2, h2]
    · have hbranch : applySetField ((k1, v1) :: rest) (k, v) =
          (k1, v1) :: applySetField rest (k, v) := by
        simp [applySetField, beq_false_of_ne hp]
      by_cases h2 : k2 = k1
      · subst h2
        have hk : ¬ k2 = k := fun hh => hp (hh ▸ rfl)
        simp [hbranch, List.lookup_cons, hk]
      · simp [hbranch, List.lookup_cons, beq_false_of_ne h2, ih]

theorem lookup_foldl_applySetField_not_mem (updates : List (String × Value))
    (fields : List (String × Value)) (k : String)
    (h : k ∉ updates.map Prod.fst) :
    (updates.foldl applySetField fields).lookup k = fields.lookup k := by
  induction updates generalizing fields with
  | nil => rfl
  | cons kv rest ih =>
    simp only [List.map_cons, List.mem_cons] at h
    push_neg at h
    simp only [List.foldl_cons]
    rw [ih _ h.2]
    obtain ⟨k1, v1⟩ := kv
    rw [lookup_applySetField]
    simp at h
    simp [h.1]

theorem lookup_foldl_applySetField_mem (updates : List (String × Value))
    (fields : List (String × Value)) (k : String) (v : Value)
    (hnodup : (updates.map Prod.fst).Nodup) (hmem : (k, v) ∈ updates) :
    (updates.foldl applySetField fields).lookup k = some v := by
  induction updates generalizing fields with
  | nil => cases hmem
  | cons kv rest ih =>
    obtain ⟨k1, v1⟩ := kv
    simp only [List.foldl_cons]
    rcases List.mem_cons.mp hmem with heq | hmem2
    · cases heq
      have hnotin : k ∉ rest.map Prod.fst := by
        simp only [List.map_cons, List.nodup_cons] at hnodup
        exact hnodup.1
      rw [lookup_foldl_applySetField_not_mem rest _ k hnotin,
        lookup_applySetField]
      simp
    · have hnodup2 : (rest.map Prod.fst).Nodup := by
        simp only [List.map_cons, List.nodup_cons] at hnodup
        exact hnodup.2
      exact ih _ hnodup2 hmem2

theorem findDoc_oid {ds : List Doc} {oid : String} {d : Doc}
    (h : findDoc ds oid = some d) : d.oid = oid := by
  unfold findDoc at h
  have := List.find?_some h
  exact eq_of_beq this

theorem findDoc_replaceDoc {ds : List Doc} {oid : String} {d d2 : Doc}
    (h : findDoc ds oid = some d) (h2 : d2.oid = oid) :
    findDoc (replaceDoc ds oid d2) oid = some d2 := by
  induction ds with
  | nil => simp [findDoc] at h
  | cons x xs ih =>
    by_cases hx : x.oid = oid
    · simp [replaceDoc, beq_iff_eq.mpr hx, findDoc, List.find?, h2]
    · have hxn := beq_false_of_ne hx
      unfold findDoc at h
      rw [List.find?_cons_of_neg _ (by simp [hxn])] at h
      have hrep : replaceDoc (x :: xs) oid d2 = x :: replaceDoc xs oid d2 := by
        simp [replaceDoc, hxn]
      rw [hrep]
      unfold findDoc
      rw [List.find?_cons_of_neg _ (by simp [hxn])]
      exact ih h

theorem any_key_of_lookup {β : Type} (l : List (String × β)) (name : String)
    (b : β) (h : l.lookup name = some b) :
    l.any (fun p => p.1 == name) = true := by
  induction l with
  | nil => simp [List.lookup] at h
  | cons p rest ih =>
    obtain ⟨k, v⟩ := p
    by_cases hk : name = k
    · subst hk
      simp
    · rw [List.lookup_cons] at h
      simp only [beq_false_of_ne hk] at h
      simp only [List.any_cons]
      rw [ih h]
      simp

theorem find_setColl (db : Db) (name : String) (ds : List Doc)
    (hex : db.collectionExists name = true) :
    (db.setColl name ds).find name = ds := by
  obtain ⟨colls⟩ := db
  unfold Db.collectionExists at hex
  unfold Db.setColl Db.find
  induction colls with
  | nil => simp at hex
  | cons p rest ih =>
    obtain ⟨k, v⟩ := p
    by_cases hk : k = name
    · subst hk
      simp [List.lookup_cons]
    · simp only [List.any_cons, beq_false_of_ne hk, Bool.false_or] at hex
      simp only [List.map_cons, beq_false_of_ne hk, Bool.false_eq_true, if_false,
        List.lookup_cons, beq_false_of_ne (Ne.symm hk)]
      exact ih hex

theorem collectionExists_of_find_ne (db : Db) (name : String)
    (h : db.find name ≠ []) : db.collectionExists name = true := by
  unfold Db.find at h
  cases hl : db.collections.lookup name with
  | none => rw [hl] at h; simp at h
  | some ds => exact any_key_of_lookup _ _ _ hl

theorem updateOne_found (db : Db) (name oid : String)
    (updates : List (String × Value)) (d : Doc)
    (h : findDoc (db.find name) oid = some d) :
    db.updateOne name oid updates =
      (⟨1, if d.applySet updates = d then 0 else 1⟩,
        db.setColl name (replaceDoc (db.find name) oid (d.applySet updates))) := by
  unfold Db.updateOne
  rw [h]

theorem updateOne_not_found (db : Db) (name oid : String)
    (updates : List (String × Value))
    (h : findDoc (db.find name) oid = none) :
    db.updateOne name oid updates = (⟨0, 0⟩, db) := by
  unfold Db.updateOne
  rw [h]

/-! ### Claim theorems -/

/-- Claim C1, as stated, is false: a malformed identifier on the by-id
collection routes does not produce HTTP 400 — the `new ObjectId` throw is
caught by each handler's catch branch, which answers 500 (here at the
concrete malformed id `"xyz"` on collection `"lessons"`). -/
theorem claimC1_counterexample :
    isValidObjectId "xyz" = false ∧
    (getDocumentById emptyDb "lessons" "xyz").1.status ≠ 400 ∧
    (deleteDocumentById emptyDb "lessons" "xyz").1.status ≠ 400 ∧
    (putCollectionById emptyDb "lessons" "xyz"
      (some [("a", Value.num 1)])).1.status ≠ 400 := by
  decide

/-- Claim C1 (amended): for every request to GET/PUT/DELETE
`/collections/:name/:id` whose id is not a valid identifier encoding, the
handler responds HTTP 500 (the catch branch around the throwing `ObjectId`
constructor), and no storage lookup (find, update, or delete) is performed
and the database is unchanged. -/
theorem claimC1_theorem (db : Db) (coll idParam : String)
    (body : Option (List (String × Value)))
    (h : isValidObjectId idParam = false) :
    getDocumentById db coll idParam =
      (⟨500, some (fetchByIdErrMsg idParam coll objectIdErrMsg), none, none⟩,
        db, []) ∧
    deleteDocumentById db coll idParam =
      (⟨500, some (deleteByIdErrMsg idParam coll objectIdErrMsg), none, none⟩,
        db, []) ∧
    putCollectionById db coll idParam body =
      (⟨500, some (updateByIdErrMsg idParam coll objectIdErrMsg), none, none⟩,
        db, []) := by
  refine ⟨?_, ?_, ?_⟩ <;>
    simp [getDocumentById, deleteDocumentById, putCollectionById, h]

/-- Claim C1 witness: the amended theorem evaluated at the malformed id
`"xyz"`. -/
theorem claimC1_witness :
    getDocumentById emptyDb "lessons" "xyz" =
      (⟨500, some (fetchByIdErrMsg "xyz" "lessons" objectIdErrMsg), none, none⟩,
        emptyDb, []) ∧
    deleteDocumentById emptyDb "lessons" "xyz" =
      (⟨500, some (deleteByIdErrMsg "xyz" "lessons" objectIdErrMsg), none, none⟩,
        emptyDb, []) ∧
    putCollectionById emptyDb "lessons" "xyz" none =
      (⟨500, some (updateByIdErrMsg "xyz" "lessons" objectIdErrMsg), none, none⟩,
        emptyDb, []) :=
  claimC1_theorem emptyDb "lessons" "xyz" none (by decide)

/-- Claim C4, as stated, is false: the per-handler catch branch of
`GET /collections/:collectionName` interpolates the exception's own message
(here `"ECONNRESET"`) into the 500 response body, rather than a generic
message. -/
theorem claimC4_counterexample :
    (getAllCollection "lessons" (Except.error "ECONNRESET")).status = 500 ∧
    (getAllCollection "lessons" (Except.error "ECONNRESET")).error =
      some "Error fetching documents from collection \x22lessons\x22: ECONNRESET" ∧
    (getAllCollection "lessons" (Except.error "ECONNRESET")).error ≠
      globalErrorResponse.error := by
  decide

/-- Claim C4 (amended): only the global error-handling middleware responds
with a generic body; the collections handlers' own catch branches answer 500
with the storage exception's message interpolated into the response, so the
error detail does reach the client on those paths. -/
theorem claimC4_theorem (coll msg : String) :
    getAllCollection coll (Except.error msg) =
      ⟨500, some (fetchAllErrMsg coll msg), none, none⟩ ∧
    getLimitedCollection coll (Except.error msg) =
      ⟨500, some (fetchLimitedErrMsg coll msg), none, none⟩ ∧
    globalErrorResponse =
      ⟨500, some "An unexpected internal error occurred.", none, none⟩ :=
  ⟨rfl, rfl, rfl⟩

/-- Claim C8: a `POST /collections/:name` request whose JSON body is missing
or an empty object is answered 400, no insert happens, and the collection's
contents (hence its document count) are unchanged. -/
theorem claimC8_theorem (db : Db) (coll newId : String)
    (body : Option (List (String × Value)))
    (h : body = none ∨ body = some []) :
    postCollection db coll body newId =
      (⟨400, some "Request body cannot be empty.", none, none⟩, db, []) ∧
    ((postCollection db coll body newId).2.1).find coll = db.find coll := by
  rcases h with h | h <;> subst h <;> exact ⟨rfl, rfl⟩

/-- Claim C8 witness: the empty-object body on the empty database. -/
theorem claimC8_witness :
    postCollection emptyDb "lessons" (some []) oidA =
      (⟨400, some "Request body cannot be empty.", none, none⟩, emptyDb, []) ∧
    ((postCollection emptyDb "lessons" (some []) oidA).2.1).find "lessons" =
      emptyDb.find "lessons" :=
  claimC8_theorem emptyDb "lessons" oidA (some []) (Or.inr rfl)

/-- Claim C9: an order-create request (`POST /orders` or `POST /order`)
missing the customer name, the phone, or the lesson-selection payload
(`lessonIDs`/`spaces`, respectively `lessons` with `address`) is answered
HTTP 400 and no order document is inserted. -/
theorem claimC9_theorem (db : Db) (b : OrdersBody) (b2 : OrderBody)
    (newId : String) (now : Value)
    (h1 : b.name = none ∨ b.phone = none ∨ b.lessonIDs = none ∨
      b.spaces = none)
    (h2 : b2.name = none ∨ b2.phone = none ∨ b2.address = none ∨
      b2.lessons = none) :
    postOrders db b newId =
      (⟨400, some "Invalid order format.", none, none⟩, db, []) ∧
    postOrder db b2 newId now =
      (⟨400, some "Invalid order format.", none, none⟩, db, []) := by
  constructor
  · rcases h1 with h | h | h | h <;> simp [postOrders, truthyOpt, h]
  · rcases h2 with h | h | h | h <;> simp [postOrder, truthyOpt, isArrayOpt, h]

/-- Claim C9 witness: `POST /orders` with every field missing, and
`POST /order` with the `lessons` list missing. -/
theorem claimC9_witness :
    postOrders emptyDb ⟨none, none, none, none⟩ oidA =
      (⟨400, some "Invalid order format.", none, none⟩, emptyDb, []) ∧
    postOrder emptyDb
      ⟨some (Value.str "Alice"), some (Value.str "12345"),
        some (Value.str "Main St"), none⟩ oidA Value.null =
      (⟨400, some "Invalid order format.", none, none⟩, emptyDb, []) :=
  claimC9_theorem emptyDb ⟨none, none, none, none⟩
    ⟨some (Value.str "Alice"), some (Value.str "12345"),
      some (Value.str "Main St"), none⟩ oidA Value.null
    (Or.inl rfl) (Or.inr (Or.inr (Or.inr rfl)))

/-- Claim C10 (implicit): the order validators test truthiness, not
presence, so present-but-falsy required fields — `spaces` equal to 0, or an
empty string for name, phone, or address — are rejected with HTTP 400 and
nothing is inserted. -/
theorem claimC10_theorem (db : Db) (b : OrdersBody) (b2 : OrderBody)
    (newId : String) (now : Value)
    (h1 : b.spaces = some (Value.num 0) ∨ b.name = some (Value.str "") ∨
      b.phone = some (Value.str ""))
    (h2 : b2.name = some (Value.str "") ∨ b2.phone = some (Value.str "") ∨
      b2.address = some (Value.str "")) :
    postOrders db b newId =
      (⟨400, some "Invalid order format.", none, none⟩, db, []) ∧
    postOrder db b2 newId now =
      (⟨400, some "Invalid order format.", none, none⟩, db, []) := by
  constructor
  · rcases h1 with h | h | h <;> simp [postOrders, truthyOpt, Value.truthy, h]
  · rcases h2 with h | h | h <;> simp [postOrder, truthyOpt, Value.truthy, h]

/-- Claim C10 witness: an otherwise-valid `/orders` body with `spaces: 0`,
and an otherwise-valid `/order` body with an empty `address`. -/
theorem claimC10_witness :
    postOrders emptyDb zeroSpacesOrder oidA =
      (⟨400, some "Invalid order format.", none, none⟩, emptyDb, []) ∧
    postOrder emptyDb emptyAddressOrder oidA Value.null =
      (⟨400, some "Invalid order format.", none, none⟩, emptyDb, []) :=
  claimC10_theorem emptyDb zeroSpacesOrder emptyAddressOrder oidA Value.null
    (Or.inl rfl) (Or.inr (Or.inr rfl))

/-- Claim C2, as stated, is false for `PUT /lessons/:id`: with a valid id,
a non-empty body, and a stored lesson carrying that id, supplying the value
already stored (`spaces: 5`) yields HTTP 404 (`modifiedCount === 0` is
conflated with "not found"), not a success message. -/
theorem claimC2_counterexample :
    isValidObjectId oidA = true ∧
    findDoc (lessonsDb.find "lessons") oidA = some lessonMath ∧
    (putLessonById lessonsDb oidA [("spaces", Value.num 5)]).1.status = 404 := by
  decide

/-- Claim C2 (amended): with a valid identifier and a non-empty body,
`PUT /collections/:name/:id` responds 404 exactly when no stored document
carries the identifier (its check is `matchedCount === 0`), and success
otherwise — including no-op updates; but `PUT /lessons/:id` checks
`modifiedCount === 0`, so it also responds 404 when the document exists and
the supplied values equal the stored ones, answering success only when the
update actually changes the document. -/
theorem claimC2_theorem (db : Db) (coll idParam : String)
    (updates : List (String × Value))
    (hv : isValidObjectId idParam = true) (hne : updates ≠ []) :
    ((putCollectionById db coll idParam (some updates)).1.status =
      match findDoc (db.find coll) idParam with
      | none => 404
      | some _ => 200) ∧
    ((putLessonById db idParam updates).1.status =
      match findDoc (db.find "lessons") idParam with
      | none => 404
      | some d => if d.applySet updates = d then 404 else 200) := by
  constructor
  · cases hfd : findDoc (db.find coll) idParam with
    | none =>
      simp [putCollectionById, hv, List.length_eq_zero, hne,
        updateOne_not_found _ _ _ _ hfd]
    | some d =>
      simp [putCollectionById, hv, List.length_eq_zero, hne,
        updateOne_found _ _ _ _ _ hfd]
  · cases hfd : findDoc (db.find "lessons") idParam with
    | none =>
      simp [putLessonById, hv, updateOne_not_found _ _ _ _ hfd]
    | some d =>
      by_cases hch : d.applySet updates = d <;>
        simp [putLessonById, hv, updateOne_found _ _ _ _ _ hfd, hch]

/-- Claim C2 witness: updating the stored lesson's `spaces` from 5 to 3
succeeds on both routes (here the update does change the document). -/
theorem claimC2_witness :
    ((putCollectionById lessonsDb "lessons" oidA
        (some [("spaces", Value.num 3)])).1.status =
      match findDoc (lessonsDb.find "lessons") oidA with
      | none => 404
      | some _ => 200) ∧
    ((putLessonById lessonsDb oidA [("spaces", Value.num 3)]).1.status =
      match findDoc (lessonsDb.find "lessons") oidA with
      | none => 404
      | some d => if d.applySet [("spaces", Value.num 3)] = d then 404
          else 200) :=
  claimC2_theorem lessonsDb "lessons" oidA [("spaces", Value.num 3)]
    (by decide) (by decide)

/-- Claim C3, as stated, is false: in the iteration that defines the
`/collections` routes, the `collectionName` param middleware performs no
existence check, so a request naming a non-existent collection reaches the
CRUD handler and touches storage — a POST to the missing collection `"foo"`
succeeds with HTTP 200 and performs an insert. -/
theorem claimC3_counterexample :
    Db.collectionExists emptyDb "foo" = false ∧
    (routePostNoCheck emptyDb "foo" (some [("a", Value.num 1)]) oidA).1.status
      = 200 ∧
    (routePostNoCheck emptyDb "foo" (some [("a", Value.num 1)]) oidA).2.2
      ≠ [] := by
  decide

/-- Claim C3 (amended): only the iterations with the existence-checking
`collectionName` middleware short-circuit a missing collection with HTTP 404
naming it, before any handler runs; the iteration that actually defines the
`/collections` routes installs a middleware without the check, so its
handlers run against the missing name and touch storage (a POST performs the
insert and succeeds). -/
theorem claimC3_theorem (db : Db) (coll : String)
    (fields : List (String × Value)) (newId : String)
    (hex : db.collectionExists coll = false) (hne : fields ≠ []) :
    (collectionParamWithCheck db coll =
      ParamOutcome.respond ⟨404, some (collectionNotFoundMsg coll), none, none⟩ ∧
     routePostWithCheck db coll (some fields) newId =
      (⟨404, some (collectionNotFoundMsg coll), none, none⟩, db, [])) ∧
    routePostNoCheck db coll (some fields) newId =
      (⟨200, none, none, some "Document created successfully."⟩,
        db.insertOne coll ⟨newId, fields⟩,
        [StoreOp.insertOne coll ⟨newId, fields⟩]) := by
  refine ⟨⟨?_, ?_⟩, ?_⟩
  · simp [collectionParamWithCheck, hex]
  · simp [routePostWithCheck, collectionParamWithCheck, hex]
  · simp [routePostNoCheck, collectionParamNoCheck, postCollection,
      List.length_eq_zero, hne]

/-- Claim C3 witness: the missing collection `"foo"` on the empty
database. -/
theorem claimC3_witness :
    (collectionParamWithCheck emptyDb "foo" =
      ParamOutcome.respond
        ⟨404, some (collectionNotFoundMsg "foo"), none, none⟩ ∧
     routePostWithCheck emptyDb "foo" (some [("a", Value.num 1)]) oidA =
      (⟨404, some (collectionNotFoundMsg "foo"), none, none⟩, emptyDb, [])) ∧
    routePostNoCheck emptyDb "foo" (some [("a", Value.num 1)]) oidA =
      (⟨200, none, none, some "Document created successfully."⟩,
        emptyDb.insertOne "foo" ⟨oidA, [("a", Value.num 1)]⟩,
        [StoreOp.insertOne "foo" ⟨oidA, [("a", Value.num 1)]⟩]) :=
  claimC3_theorem emptyDb "foo" [("a", Value.num 1)] oidA (by decide)
    (by decide)

/-- Claim C5: when the bound collection reads as empty,
`GET /collections/:name` and `GET /collections/:name/limited` answer
HTTP 404 with "No documents found in the collection." rather than an empty
array; when it is non-empty, `GET /collections/:name` answers 200 with
exactly the stored documents. -/
theorem claimC5_theorem (db : Db) (coll : String) :
    (db.find coll = [] →
      (routeGetAll db coll).1 =
        ⟨404, some "No documents found in the collection.", none, none⟩ ∧
      (routeGetLimited db coll).1 =
        ⟨404, some "No documents found in the collection.", none, none⟩) ∧
    (db.find coll ≠ [] →
      (routeGetAll db coll).1 = ⟨200, none, some (db.find coll), none⟩) := by
  constructor
  · intro h
    constructor
    · simp [routeGetAll, collectionParamNoCheck, getAllCollection, h]
    · simp [routeGetLimited, collectionParamNoCheck, getLimitedCollection, h,
        sortByPriceDesc]
  · intro h
    simp [routeGetAll, collectionParamNoCheck, getAllCollection,
      List.length_eq_zero, h]

/-- Claim C5 witness: both routes on a database where `lessons` is empty,
and the list route on a database where `lessons` holds one document. -/
theorem claimC5_witness :
    ((routeGetAll emptyDb "lessons").1 =
      ⟨404, some "No documents found in the collection.", none, none⟩ ∧
     (routeGetLimited emptyDb "lessons").1 =
      ⟨404, some "No documents found in the collection.", none, none⟩) ∧
    (routeGetAll lessonsDb "lessons").1 =
      ⟨200, none, some (lessonsDb.find "lessons"), none⟩ :=
  ⟨(claimC5_theorem emptyDb "lessons").1 rfl,
    (claimC5_theorem lessonsDb "lessons").2 (by decide)⟩

/-- Claim C6: `GET /collections/:name/limited` returns at most 3 documents,
sorted by their `price` field in descending order (the store sorts before
limiting; documents of equal price may appear in either relative order,
which `priceGe` permits). -/
theorem claimC6_theorem (coll : String) (docs out : List Doc)
    (h : (getLimitedCollection coll (Except.ok docs)).docs = some out) :
    out.length ≤ 3 ∧ List.Sorted priceGe out := by
  have hsorted : List.Sorted priceGe (sortByPriceDesc docs) :=
    List.sorted_insertionSort priceGe docs
  by_cases hz : sortByPriceDesc docs = []
  · simp [getLimitedCollection, hz] at h
  · simp [getLimitedCollection, hz] at h
    subst h
    constructor
    · rw [List.length_take]
      exact min_le_left _ _
    · exact List.Pairwise.sublist (List.take_sublist 3 _) hsorted

/-- Claim C6 witness: four unsorted priced documents come back as the three
highest prices in descending order. -/
theorem claimC6_witness :
    [priceDoc9, priceDoc7, priceDoc5].length ≤ 3 ∧
    List.Sorted priceGe [priceDoc9, priceDoc7, priceDoc5] :=
  claimC6_theorem "lessons" pricedDocs [priceDoc9, priceDoc7, priceDoc5]
    (by decide)

/-- Claim C7: a successful partial update (`PUT /collections/:name/:id`, or
`PUT /lessons/:id` once `coll = "lessons"`) stores exactly the `$set`-merged
document: the document under the identifier becomes `d.applySet updates`,
every supplied field reads back as the supplied value, and every field not
named in the body retains its prior value. -/
theorem claimC7_theorem (db : Db) (coll idParam : String)
    (updates : List (String × Value)) (d : Doc)
    (hv : isValidObjectId idParam = true) (hne : updates ≠ [])
    (hfound : findDoc (db.find coll) idParam = some d)
    (hnodup : (updates.map Prod.fst).Nodup) :
    findDoc (((putCollectionById db coll idParam (some updates)).2.1).find coll)
        idParam = some (d.applySet updates) ∧
    (∀ k v, (k, v) ∈ updates →
      (d.applySet updates).fields.lookup k = some v) ∧
    (∀ k, k ∉ updates.map Prod.fst →
      (d.applySet updates).fields.lookup k = d.fields.lookup k) ∧
    (coll = "lessons" →
      findDoc (((putLessonById db idParam updates).2.1).find "lessons")
        idParam = some (d.applySet updates)) := by
  have hoid : (d.applySet updates).oid = idParam := by
    have := findDoc_oid hfound
    simpa [Doc.applySet] using this
  have hex : db.collectionExists coll = true := by
    refine collectionExists_of_find_ne db coll (fun hnil => ?_)
    rw [hnil] at hfound
    simp [findDoc] at hfound
  have hupd := updateOne_found db coll idParam updates d hfound
  refine ⟨?_, ?_, ?_, ?_⟩
  · have hdb2 : (putCollectionById db coll idParam (some updates)).2.1 =
        db.setColl coll (replaceDoc (db.find coll) idParam
          (d.applySet updates)) := by
      simp [putCollectionById, hv, List.length_eq_zero, hne, hupd]
    rw [hdb2, find_setColl _ _ _ hex]
    exact findDoc_replaceDoc hfound hoid
  · intro k v hmem
    exact lookup_foldl_applySetField_mem updates d.fields k v hnodup hmem
  · intro k hnot
    exact lookup_foldl_applySetField_not_mem updates d.fields k hnot
  · intro hcoll
    subst hcoll
    have hdb3 : (putLessonById db idParam updates).2.1 =
        db.setColl "lessons" (replaceDoc (db.find "lessons") idParam
          (d.applySet updates)) := by
      by_cases hch : d.applySet updates = d <;>
        simp [putLessonById, hv, hupd, hch]
    rw [hdb3, find_setColl _ _ _ hex]
    exact findDoc_replaceDoc hfound hoid

/-- Claim C7 witness: updating only `spaces` on the stored Math lesson; the
updated document is stored, `spaces` reads back as 3, and `subject` is
untouched — on both routes. -/
theorem claimC7_witness :
    findDoc (((putCollectionById lessonsDb "lessons" oidA
        (some [("spaces", Value.num 3)])).2.1).find "lessons") oidA =
      some (lessonMath.applySet [("spaces", Value.num 3)]) ∧
    (lessonMath.applySet [("spaces", Value.num 3)]).fields.lookup "spaces" =
      some (Value.num 3) ∧
    (lessonMath.applySet [("spaces", Value.num 3)]).fields.lookup "subject" =
      lessonMath.fields.lookup "subject" ∧
    findDoc (((putLessonById lessonsDb oidA
        [("spaces", Value.num 3)]).2.1).find "lessons") oidA =
      some (lessonMath.applySet [("spaces", Value.num 3)]) := by
  obtain ⟨h1, h2, h3, h4⟩ := claimC7_theorem lessonsDb "lessons" oidA
    [("spaces", Value.num 3)] lessonMath (by decide) (by decide) (by decide)
    (by decide)
  exact ⟨h1, h2 "spaces" (Value.num 3) (by simp), h3 "subject" (by simp),
    h4 rfl⟩
